import Mathlib

/-
  Verification of the syscall entry and dispatch layer of the Aero kernel
  (src/aero_kernel/src/syscall/mod.rs), shallowly embedded in Lean 4.

  Machine words are modelled as Nat; where overflow matters the embedding
  checks against 2 ^ 64 explicitly.  External collaborators (the handler
  functions living in the fs / net / process / time / ipc / futex modules,
  and the outcome encoder aero_syscall::syscall_result_as_usize) are
  parameters of the embedded dispatcher: the dispatcher's own behaviour is
  captured by which handler it selects, which argument words it forwards,
  and which diagnostic lines it emits.
-/

set_option autoImplicit false

namespace Aero

/-- Error codes of the external aero_syscall crate; only representatives are
needed here.  ENOSYS is the one code the dispatcher itself produces. -/
inductive SyscallError where
  | ENOSYS
  | EINVAL
  | EFAULT
  | EACCES
  deriving DecidableEq

/-- The Rust type Result with usize success values and SyscallError errors. -/
abbrev SyscallResult := Except SyscallError Nat

/-- Severity of a diagnostic line (log::error! vs log::trace!). -/
inductive Severity where
  | error
  | trace
  deriving DecidableEq

/-- One diagnostic line written to the kernel log. -/
structure LogLine where
  sev : Severity
  msg : String
  deriving DecidableEq

/-- Rendering of a Nat the way Rust's alternate hex format prints it:
a 0x prefix followed by lowercase hex digits. -/
def hexFmt (n : Nat) : String :=
  "0x" ++ (Nat.toDigits 16 n).asString

/-
  The syscall selector constants come from the external aero_syscall crate,
  which is not part of this repository snapshot.  Their exact numeric values
  are irrelevant to every claim below (only their pairwise distinctness
  matters, which the Rust match over constant patterns requires); they are
  modelled as distinct naturals in source order.
-/

def SYS_EXIT : Nat := 0
def SYS_SHUTDOWN : Nat := 1
def SYS_FORK : Nat := 2
def SYS_MMAP : Nat := 3
def SYS_MUNMAP : Nat := 4
def SYS_MPROTECT : Nat := 5
def SYS_EXEC : Nat := 6
def SYS_LOG : Nat := 7
def SYS_UNAME : Nat := 8
def SYS_WAITPID : Nat := 9
def SYS_GETPID : Nat := 10
def SYS_GETPPID : Nat := 11
def SYS_GETTID : Nat := 12
def SYS_GETHOSTNAME : Nat := 13
def SYS_SETHOSTNAME : Nat := 14
def SYS_INFO : Nat := 15
def SYS_SIGACTION : Nat := 16
def SYS_SIGPROCMASK : Nat := 17
def SYS_CLONE : Nat := 18
def SYS_KILL : Nat := 19
def SYS_BACKTRACE : Nat := 20
def SYS_TRACE : Nat := 21
def SYS_SETPGID : Nat := 22
def SYS_SETSID : Nat := 23
def SYS_GETPGID : Nat := 24
def SYS_READ : Nat := 25
def SYS_OPEN : Nat := 26
def SYS_CLOSE : Nat := 27
def SYS_WRITE : Nat := 28
def SYS_GETDENTS : Nat := 29
def SYS_GETCWD : Nat := 30
def SYS_CHDIR : Nat := 31
def SYS_MKDIR_AT : Nat := 32
def SYS_RMDIR : Nat := 33
def SYS_IOCTL : Nat := 34
def SYS_SEEK : Nat := 35
def SYS_ACCESS : Nat := 36
def SYS_PIPE : Nat := 37
def SYS_UNLINK : Nat := 38
def SYS_DUP : Nat := 39
def SYS_DUP2 : Nat := 40
def SYS_FCNTL : Nat := 41
def SYS_STAT : Nat := 42
def SYS_FSTAT : Nat := 43
def SYS_READ_LINK : Nat := 44
def SYS_EVENT_FD : Nat := 45
def SYS_LINK : Nat := 46
def SYS_POLL : Nat := 47
def SYS_RENAME : Nat := 48
def SYS_EPOLL_CREATE : Nat := 49
def SYS_EPOLL_CTL : Nat := 50
def SYS_EPOLL_PWAIT : Nat := 51
def SYS_SOCKET : Nat := 52
def SYS_BIND : Nat := 53
def SYS_CONNECT : Nat := 54
def SYS_LISTEN : Nat := 55
def SYS_ACCEPT : Nat := 56
def SYS_SOCK_RECV : Nat := 57
def SYS_SOCK_SEND : Nat := 58
def SYS_SOCKET_PAIR : Nat := 59
def SYS_SOCK_SHUTDOWN : Nat := 60
def SYS_GETPEERNAME : Nat := 61
def SYS_GETSOCKNAME : Nat := 62
def SYS_SETSOCKOPT : Nat := 63
def SYS_GETTIME : Nat := 64
def SYS_SLEEP : Nat := 65
def SYS_SETITIMER : Nat := 66
def SYS_GETITIMER : Nat := 67
def SYS_IPC_SEND : Nat := 68
def SYS_IPC_RECV : Nat := 69
def SYS_IPC_DISCOVER_ROOT : Nat := 70
def SYS_IPC_BECOME_ROOT : Nat := 71
def SYS_FUTEX_WAIT : Nat := 72
def SYS_FUTEX_WAKE : Nat := 73
def SYS_MKDIR : Nat := 74
def SYS_DEBUG : Nat := 75

/-- The aero_syscall constant AT_FDCWD, the usize reinterpretation of the
conventional value -100; its exact value is irrelevant to the claims. -/
def AT_FDCWD : Nat := 2 ^ 64 - 100

/-- A defunctionalised handler invocation: the name of the handler function
the dispatcher calls and the exact machine words it passes, in order. -/
abbrev HandlerCall := String × List Nat

/-- The body of the Rust match in generic_do_syscall, entry by entry in
source order.  A match over pairwise-distinct constant patterns is exactly a
first-match association lookup on this list.  Note the SYS_SETSOCKOPT arm of
the source calls net::setopt(a, b, c, d, e) with the selector word a itself
as first argument (at that arm a equals SYS_SETSOCKOPT), and the SYS_MKDIR
alias arm calls fs::mkdirat(AT_FDCWD as _, b, c). -/
def syscallTable (b c d e f g : Nat) : List (Nat × HandlerCall) :=
  [(SYS_EXIT, ("process::exit", [b])),
   (SYS_SHUTDOWN, ("process::shutdown", [])),
   (SYS_FORK, ("process::fork", [])),
   (SYS_MMAP, ("process::mmap", [b, c, d, e, f, g])),
   (SYS_MUNMAP, ("process::munmap", [b, c])),
   (SYS_MPROTECT, ("process::mprotect", [b, c, d])),
   (SYS_EXEC, ("process::exec", [b, c, d, e, f, g])),
   (SYS_LOG, ("process::log", [b, c])),
   (SYS_UNAME, ("process::uname", [b])),
   (SYS_WAITPID, ("process::waitpid", [b, c, d])),
   (SYS_GETPID, ("process::getpid", [])),
   (SYS_GETPPID, ("process::getppid", [])),
   (SYS_GETTID, ("process::gettid", [])),
   (SYS_GETHOSTNAME, ("process::gethostname", [b, c])),
   (SYS_SETHOSTNAME, ("process::sethostname", [b, c])),
   (SYS_INFO, ("process::info", [b])),
   (SYS_SIGACTION, ("process::sigaction", [b, c, d, e])),
   (SYS_SIGPROCMASK, ("process::sigprocmask", [b, c, d])),
   (SYS_CLONE, ("process::clone", [b, c])),
   (SYS_KILL, ("process::kill", [b, c])),
   (SYS_BACKTRACE, ("process::backtrace", [])),
   (SYS_TRACE, ("process::trace", [])),
   (SYS_SETPGID, ("process::setpgid", [b, c])),
   (SYS_SETSID, ("process::setsid", [])),
   (SYS_GETPGID, ("process::getpgid", [b])),
   (SYS_READ, ("fs::read", [b, c, d])),
   (SYS_OPEN, ("fs::open", [b, c, d, e])),
   (SYS_CLOSE, ("fs::close", [b])),
   (SYS_WRITE, ("fs::write", [b, c, d])),
   (SYS_GETDENTS, ("fs::getdents", [b, c, d])),
   (SYS_GETCWD, ("fs::getcwd", [b, c])),
   (SYS_CHDIR, ("fs::chdir", [b, c])),
   (SYS_MKDIR_AT, ("fs::mkdirat", [b, c, d])),
   (SYS_RMDIR, ("fs::rmdir", [b, c])),
   (SYS_IOCTL, ("fs::ioctl", [b, c, d])),
   (SYS_SEEK, ("fs::seek", [b, c, d])),
   (SYS_ACCESS, ("fs::access", [b, c, d, e, f])),
   (SYS_PIPE, ("fs::pipe", [b, c])),
   (SYS_UNLINK, ("fs::unlink", [b, c, d, e])),
   (SYS_DUP, ("fs::dup", [b, c])),
   (SYS_DUP2, ("fs::dup2", [b, c, d])),
   (SYS_FCNTL, ("fs::fcntl", [b, c, d])),
   (SYS_STAT, ("fs::stat", [b, c, d])),
   (SYS_FSTAT, ("fs::fstat", [b, c])),
   (SYS_READ_LINK, ("fs::read_link", [b, c, d, e])),
   (SYS_EVENT_FD, ("fs::event_fd", [b, c])),
   (SYS_LINK, ("fs::link", [b, c, d, e])),
   (SYS_POLL, ("fs::poll", [b, c, d, e])),
   (SYS_RENAME, ("fs::rename", [b, c, d, e])),
   (SYS_EPOLL_CREATE, ("fs::epoll_create", [b])),
   (SYS_EPOLL_CTL, ("fs::epoll_ctl", [b, c, d, e])),
   (SYS_EPOLL_PWAIT, ("fs::epoll_pwait", [b, c, d, e, f])),
   (SYS_SOCKET, ("net::socket", [b, c, d])),
   (SYS_BIND, ("net::bind", [b, c, d])),
   (SYS_CONNECT, ("net::connect", [b, c, d])),
   (SYS_LISTEN, ("net::listen", [b, c])),
   (SYS_ACCEPT, ("net::accept", [b, c, d])),
   (SYS_SOCK_RECV, ("net::sock_recv", [b, c, d])),
   (SYS_SOCK_SEND, ("net::sock_send", [b, c, d])),
   (SYS_SOCKET_PAIR, ("net::socket_pair", [b, c, d, e])),
   (SYS_SOCK_SHUTDOWN, ("net::shutdown", [b, c])),
   (SYS_GETPEERNAME, ("net::get_peername", [b, c, d])),
   (SYS_GETSOCKNAME, ("net::get_sockname", [b, c, d])),
   (SYS_SETSOCKOPT, ("net::setopt", [SYS_SETSOCKOPT, b, c, d, e])),
   (SYS_GETTIME, ("time::gettime", [b, c])),
   (SYS_SLEEP, ("time::sleep", [b])),
   (SYS_SETITIMER, ("time::setitimer", [b, c, d])),
   (SYS_GETITIMER, ("time::getitimer", [b, c])),
   (SYS_IPC_SEND, ("ipc::send", [b, c, d])),
   (SYS_IPC_RECV, ("ipc::recv", [b, c, d, e])),
   (SYS_IPC_DISCOVER_ROOT, ("ipc::discover_root", [])),
   (SYS_IPC_BECOME_ROOT, ("ipc::become_root", [])),
   (SYS_FUTEX_WAIT, ("futex::wait", [b, c, d])),
   (SYS_FUTEX_WAKE, ("futex::wake", [b])),
   (SYS_MKDIR, ("fs::mkdirat", [AT_FDCWD, b, c])),
   (SYS_DEBUG, ("tag_memory", [b, c, d, e]))]

/-- First-match association lookup, the semantics of a Rust match over
distinct constant integer patterns. -/
def lookupCall (a : Nat) : List (Nat × HandlerCall) → Option HandlerCall
  | [] => none
  | (k, v) :: rest => if a = k then some v else lookupCall a rest

/-- Which handler (if any) the selector a routes to, and the exact argument
words passed, for the raw argument words b..g. -/
def dispatchRoute (a b c d e f g : Nat) : Option HandlerCall :=
  lookupCall a (syscallTable b c d e f g)

/-- Embedding of generic_do_syscall.  env gives the outcome each external
handler returns for a given invocation, enc is the external outcome encoder
syscall_result_as_usize.  The result is the returned machine word together
with the diagnostic lines this layer itself emits. -/
def generic_do_syscall (env : HandlerCall → SyscallResult)
    (enc : SyscallResult → Nat) (a b c d e f g : Nat) : Nat × List LogLine :=
  match dispatchRoute a b c d e f g with
  | some call => (enc (env call), [])
  | none =>
      (enc (Except.error SyscallError.ENOSYS),
       [⟨Severity.error, "invalid syscall: " ++ hexFmt a⟩])

/-- The fixed set of known syscall codes: the keys of the dispatch table. -/
def knownSelectors : List Nat :=
  (syscallTable 0 0 0 0 0 0).map Prod.fst

/-
  Argument marshaling (ExecArgs and exec_args_from_slice).  Caller memory is
  modelled by two read functions: memWord gives the machine word stored at a
  byte address (used for the [usize; 2] entries of the caller's vector:
  with 8-byte words entry i lives at args + 16 * i, its pointer at offset 0
  and its length at offset 8), and memByte gives the byte stored at an
  address.  Bytes are Nats; the source's unconditional copy_from becomes a
  total read of the modelled memory, with no validation anywhere, exactly as
  in the source.
-/

/-- Kernel-owned copies of the caller's buffers, in input order. -/
structure ExecArgs where
  inner : List (List Nat)
  deriving DecidableEq

/-- The kernel-owned copy of len bytes of caller memory starting at addr:
the embedding of boxed.as_mut_ptr().copy_from(ptr, inner[1]). -/
def readBuf (memByte : Nat → Nat) (addr len : Nat) : List Nat :=
  (List.range len).map (fun j => memByte (addr + j))

/-- The count [usize; 2] entries read from caller memory starting at args:
the embedding of core::slice::from_raw_parts(args as *const [usize; 2], size). -/
def callerEntries (memWord : Nat → Nat) (args size : Nat) : List (Nat × Nat) :=
  (List.range size).map
    (fun i => (memWord (args + 16 * i), memWord (args + 16 * i + 8)))

/-- The for-loop of exec_args_from_slice: one Vec::push per entry. -/
def collectLoop (memByte : Nat → Nat) :
    List (Nat × Nat) → List (List Nat) → List (List Nat)
  | [], acc => acc
  | entry :: rest, acc =>
      collectLoop memByte rest (acc ++ [readBuf memByte entry.1 entry.2])

/-- Embedding of exec_args_from_slice. -/
def exec_args_from_slice (memWord memByte : Nat → Nat) (args size : Nat) :
    ExecArgs :=
  ⟨collectLoop memByte (callerEntries memWord args size) []⟩

/-- Modelled from the spec: crate::utils::StackHelper is not part of this
repository snapshot.  Per the spec it is an abstraction over a
downward-growing memory region with a movable top cursor that supports
appending raw bytes: each append first moves the cursor down by the size of
the data and then stores the data upward in order from the new cursor, and
top returns the current cursor.  The region is modelled as a total byte
function over addresses. -/
structure StackHelper where
  top : Nat
  mem : Nat → Nat

/-- Append one byte: move the cursor down one and store the byte there. -/
def StackHelper.write (s : StackHelper) (b : Nat) : StackHelper :=
  ⟨s.top - 1, fun x => if x = s.top - 1 then b else s.mem x⟩

/-- Append a byte slice: move the cursor down by its length and store the
bytes upward in order from the new cursor. -/
def StackHelper.write_bytes (s : StackHelper) (l : List Nat) : StackHelper :=
  ⟨s.top - l.length,
   fun x =>
     if s.top - l.length ≤ x ∧ x < s.top then l.getD (x - (s.top - l.length)) 0
     else s.mem x⟩

/-- The for-loop of push_into_stack: for each buffer, write one zero byte,
then write the buffer's bytes, then record the resulting cursor. -/
def pushLoop : List (List Nat) → StackHelper → List Nat → List Nat × StackHelper
  | [], s, tops => (tops, s)
  | buf :: rest, s, tops =>
      pushLoop rest ((s.write 0).write_bytes buf)
        (tops ++ [((s.write 0).write_bytes buf).top])

/-- Embedding of ExecArgs::push_into_stack.  The receiver is taken by shared
reference in the source and cannot be mutated; the embedding is accordingly a
pure function of the ExecArgs value. -/
def ExecArgs.push_into_stack (args : ExecArgs) (s : StackHelper) :
    List Nat × StackHelper :=
  pushLoop args.inner s []

/-- Total bytes one push_into_stack run appends: one zero byte plus the
buffer's length, per buffer. -/
def totalSize : List (List Nat) → Nat
  | [] => 0
  | buf :: rest => buf.length + 1 + totalSize rest

/-- The recorded top addresses, computed from the starting cursor alone. -/
def topsFrom (t : Nat) : List (List Nat) → List Nat
  | [] => []
  | buf :: rest =>
      (t - (buf.length + 1)) :: topsFrom (t - (buf.length + 1)) rest

/-
  The debug tag handler.  Modelled from the spec: the scheduler's current
  thread and its lock-protected mem_tags map are external to this snapshot;
  the spec describes the map as a per-thread mapping from address ranges to
  labels in which overlapping entries coexist (insertion never merges or
  rejects), so the thread state is modelled as the explicit list of
  inserted (start, end, label) entries, and the short-held lock acquisition
  around the single insert is the pure state update itself.  The handler's
  upper bound addr + size is the source's unchecked machine-word addition:
  the embedding checks it against 2 ^ 64 and yields none (the arithmetic
  overflow defect) when it does not fit, mirroring Rust's treatment of
  overflow in the checked build.
-/

/-- One past the largest machine word. -/
def usizeLim : Nat := 2 ^ 64

/-- The per-thread address-range tag map, as its sequence of inserted
entries (start address, end address, label). -/
abbrev TagMap := List (Nat × Nat × String)

/-- Embedding of the tag_memory handler acting on the calling thread's tag
map.  Returns none when the unchecked addition addr + size overflows. -/
def tag_memory (addr size : Nat) (tag : String) (tags : TagMap) :
    Option (SyscallResult × TagMap) :=
  if addr + size < usizeLim then
    some (Except.ok 0, tags ++ [(addr, addr + size, tag)])
  else none

/-
  The syscall trace record (SysLog).  Argument values are rendered to
  strings at append time in the source via the external Display/Debug
  machinery; the embedding therefore appends the already-rendered string.
  flush returns the emitted trace-level lines together with the number of
  stack-trace dumps it triggers, and none when the record's outcome was
  never set (the source unwraps the absent outcome and panics).
-/

/-- Embedding of the SysLog builder state. -/
structure SysLog where
  name : String
  result : Option SyscallResult
  args : List String

/-- Embedding of SysLog::new. -/
def SysLog.new (name : String) : SysLog :=
  ⟨name, none, []⟩

/-- Embedding of SysLog::add_argument / add_argument_dbg; rendered is the
string the external formatting produced at append time. -/
def SysLog.add_argument (l : SysLog) (rendered : String) : SysLog :=
  ⟨l.name, l.result, l.args ++ [rendered]⟩

/-- Embedding of SysLog::set_result. -/
def SysLog.set_result (l : SysLog) (r : SyscallResult) : SysLog :=
  ⟨l.name, some r, l.args⟩

/-- The variant name Rust's Debug formatting prints for an error code. -/
def errName : SyscallError → String
  | SyscallError.ENOSYS => "ENOSYS"
  | SyscallError.EINVAL => "EINVAL"
  | SyscallError.EFAULT => "EFAULT"
  | SyscallError.EACCES => "EACCES"

/-- Rust's Debug rendering of the Result outcome. -/
def renderResult : SyscallResult → String
  | Except.ok n => "Ok(" ++ toString n ++ ")"
  | Except.error e => "Err(" ++ errName e ++ ")"

/-- Whether the outcome is a success. -/
def resultIsOk : SyscallResult → Bool
  | Except.ok _ => true
  | Except.error _ => false

/-- The comma-joining loop over the rendered argument strings. -/
def joinArgs (args : List String) : String :=
  String.intercalate ", " args

/-- Embedding of SysLog::flush: the emitted trace-level lines paired with
the number of stack-trace dumps triggered, or none when the outcome was
never set (the source panics unwrapping it). -/
def SysLog.flush (l : SysLog) : Option (List LogLine × Nat) :=
  match l.result with
  | none => none
  | some r =>
      some ([⟨Severity.trace,
              (if resultIsOk r then "\x1b[1;32m" else "\x1b[1;31m")
                ++ l.name ++ "\x1b[0m(" ++ joinArgs l.args ++ ") = "
                ++ renderResult r⟩],
            if resultIsOk r then 0 else 1)

theorem syscallTable_keys (b c d e f g : Nat) :
    (syscallTable b c d e f g).map Prod.fst = knownSelectors := rfl

theorem lookupCall_eq_none {a : Nat} :
    ∀ {l : List (Nat × HandlerCall)}, a ∉ l.map Prod.fst → lookupCall a l = none
  | [], _ => rfl
  | (k, v) :: rest, h => by
      simp only [List.map_cons, List.mem_cons, not_or] at h
      simpa [lookupCall, h.1] using lookupCall_eq_none h.2

theorem lookupCall_mem {a : Nat} {v : HandlerCall} :
    ∀ {l : List (Nat × HandlerCall)}, lookupCall a l = some v → (a, v) ∈ l
  | [], h => by simp [lookupCall] at h
  | (k, w) :: rest, h => by
      by_cases hk : a = k
      · subst hk
        rw [lookupCall, if_pos rfl] at h
        injection h with h
        subst h
        exact List.mem_cons_self _ _
      · simp only [lookupCall, if_neg hk] at h
        exact List.mem_cons_of_mem _ (lookupCall_mem h)

/-- Claim C1: for every selector value outside the known set of syscall
codes and all six argument words, generic_do_syscall routes to no handler,
emits exactly one error-severity diagnostic line naming the unrecognized
code, and hands the ENOSYS (unsupported call) outcome to the outcome
encoder, returning the encoder's word. -/
theorem C1_unknown_selector_default (a : Nat) (h : a ∉ knownSelectors)
    (b c d e f g : Nat) (env : HandlerCall → SyscallResult)
    (enc : SyscallResult → Nat) :
    dispatchRoute a b c d e f g = none ∧
    generic_do_syscall env enc a b c d e f g =
      (enc (Except.error SyscallError.ENOSYS),
       [⟨Severity.error, "invalid syscall: " ++ hexFmt a⟩]) := by
  have hr : dispatchRoute a b c d e f g = none := by
    apply lookupCall_eq_none
    rw [syscallTable_keys]
    exact h
  refine ⟨hr, ?_⟩
  simp [generic_do_syscall, hr]

/-- Evaluation of claim C1 at the concrete out-of-range selector 1000. -/
theorem C1_unknown_selector_default_witness :
    1000 ∉ knownSelectors ∧
    (dispatchRoute 1000 11 12 13 14 15 16 = none ∧
     generic_do_syscall (fun _ => Except.ok 0) (fun _ => 77) 1000 11 12 13 14 15 16 =
       (77, [⟨Severity.error, "invalid syscall: 0x3e8"⟩])) :=
  ⟨by decide,
   C1_unknown_selector_default 1000 (by decide) 11 12 13 14 15 16
     (fun _ => Except.ok 0) (fun _ => 77)⟩

/-- Claim C2 (amended): for every recognized selector, generic_do_syscall
invokes the one handler mapped to that selector (the table's keys are
pairwise distinct) and returns the word produced by the outcome encoder
applied verbatim to that handler's outcome, emitting no diagnostic; and for
every recognized selector other than SYS_SETSOCKOPT and SYS_MKDIR the words
passed to the handler are exactly an initial segment of the raw argument
words [b, c, d, e, f, g] in their original positions.  (The SYS_SETSOCKOPT
arm of the source passes the selector word a itself as the handler's first
argument, and the SYS_MKDIR alias arm passes the constant AT_FDCWD followed
by b and c.) -/
theorem C2_recognized_dispatch (env : HandlerCall → SyscallResult)
    (enc : SyscallResult → Nat) (a b c d e f g : Nat) (call : HandlerCall)
    (h : dispatchRoute a b c d e f g = some call) :
    generic_do_syscall env enc a b c d e f g = (enc (env call), []) ∧
    knownSelectors.Nodup ∧
    (a ≠ SYS_SETSOCKOPT → a ≠ SYS_MKDIR →
      ∃ k, call.2 = List.take k [b, c, d, e, f, g]) := by
  refine ⟨by simp [generic_do_syscall, h], by decide, ?_⟩
  intro hs hm
  have hmem : (a, call) ∈ syscallTable b c d e f g := lookupCall_mem h
  simp only [syscallTable, List.mem_cons, List.not_mem_nil, or_false,
    Prod.mk.injEq] at hmem
  rcases hmem with ⟨ha, hc⟩|⟨ha, hc⟩|⟨ha, hc⟩|⟨ha, hc⟩|⟨ha, hc⟩|⟨ha, hc⟩|⟨ha, hc⟩|⟨ha, hc⟩|⟨ha, hc⟩|⟨ha, hc⟩|⟨ha, hc⟩|⟨ha, hc⟩|⟨ha, hc⟩|⟨ha, hc⟩|⟨ha, hc⟩|⟨ha, hc⟩|⟨ha, hc⟩|⟨ha, hc⟩|⟨ha, hc⟩|⟨ha, hc⟩|⟨ha, hc⟩|⟨ha, hc⟩|⟨ha, hc⟩|⟨ha, hc⟩|⟨ha, hc⟩|⟨ha, hc⟩|⟨ha, hc⟩|⟨ha, hc⟩|⟨ha, hc⟩|⟨ha, hc⟩|⟨ha, hc⟩|⟨ha, hc⟩|⟨ha, hc⟩|⟨ha, hc⟩|⟨ha, hc⟩|⟨ha, hc⟩|⟨ha, hc⟩|⟨ha, hc⟩|⟨ha, hc⟩|⟨ha, hc⟩|⟨ha, hc⟩|⟨ha, hc⟩|⟨ha, hc⟩|⟨ha, hc⟩|⟨ha, hc⟩|⟨ha, hc⟩|⟨ha, hc⟩|⟨ha, hc⟩|⟨ha, hc⟩|⟨ha, hc⟩|⟨ha, hc⟩|⟨ha, hc⟩|⟨ha, hc⟩|⟨ha, hc⟩|⟨ha, hc⟩|⟨ha, hc⟩|⟨ha, hc⟩|⟨ha, hc⟩|⟨ha, hc⟩|⟨ha, hc⟩|⟨ha, hc⟩|⟨ha, hc⟩|⟨ha, hc⟩|⟨ha, hc⟩|⟨ha, hc⟩|⟨ha, hc⟩|⟨ha, hc⟩|⟨ha, hc⟩|⟨ha, hc⟩|⟨ha, hc⟩|⟨ha, hc⟩|⟨ha, hc⟩|⟨ha, hc⟩|⟨ha, hc⟩|⟨ha, hc⟩|⟨ha, hc⟩
  all_goals first
    | exact absurd ha hs
    | exact absurd ha hm
    | exact ⟨0, by subst hc; rfl⟩
    | exact ⟨1, by subst hc; rfl⟩
    | exact ⟨2, by subst hc; rfl⟩
    | exact ⟨3, by subst hc; rfl⟩
    | exact ⟨4, by subst hc; rfl⟩
    | exact ⟨5, by subst hc; rfl⟩
    | exact ⟨6, by subst hc; rfl⟩

/-- Evaluation of claim C2 at the concrete recognized selector SYS_READ. -/
theorem C2_recognized_dispatch_witness :
    generic_do_syscall (fun _ => Except.ok 9)
        (fun r => match r with | Except.ok n => n | Except.error _ => 1000)
        SYS_READ 31 32 33 34 35 36 = (9, []) ∧
    knownSelectors.Nodup ∧
    (SYS_READ ≠ SYS_SETSOCKOPT → SYS_READ ≠ SYS_MKDIR →
      ∃ k, ("fs::read", [31, 32, 33]).2 = List.take k [31, 32, 33, 34, 35, 36]) :=
  C2_recognized_dispatch (fun _ => Except.ok 9)
    (fun r => match r with | Except.ok n => n | Except.error _ => 1000)
    SYS_READ 31 32 33 34 35 36 ("fs::read", [31, 32, 33]) (by decide)

/-- Claim C2 counterexample: at the recognized selector SYS_SETSOCKOPT the
dispatcher passes the selector word a itself as the handler's first
argument; the passed words are not drawn from the raw argument words b..g
in their original positions. -/
theorem C2_setsockopt_counterexample :
    dispatchRoute SYS_SETSOCKOPT 100 101 102 103 104 105 =
      some ("net::setopt", [SYS_SETSOCKOPT, 100, 101, 102, 103]) ∧
    SYS_SETSOCKOPT ∈ [SYS_SETSOCKOPT, 100, 101, 102, 103] ∧
    SYS_SETSOCKOPT ∉ [100, 101, 102, 103, 104, 105] ∧
    ∀ k : Nat,
      [SYS_SETSOCKOPT, 100, 101, 102, 103] ≠
        List.take k [100, 101, 102, 103, 104, 105] := by
  refine ⟨by decide, by decide, by decide, ?_⟩
  intro k h
  have hl := congrArg List.length h
  simp only [List.length_take, List.length_cons, List.length_nil] at hl
  have hk : k = 5 := by omega
  subst hk
  exact absurd h (by decide)

theorem collectLoop_eq (memByte : Nat → Nat) :
    ∀ (l : List (Nat × Nat)) (acc : List (List Nat)),
      collectLoop memByte l acc =
        acc ++ l.map (fun en => readBuf memByte en.1 en.2)
  | [], acc => by simp [collectLoop]
  | entry :: rest, acc => by
      rw [collectLoop, collectLoop_eq memByte rest]
      simp

theorem getD_map_range {α : Type} (f : Nat → α) (n i : Nat) (d : α)
    (h : i < n) : ((List.range n).map f).getD i d = f i := by
  induction n generalizing i with
  | zero => omega
  | succ n ih =>
      rcases Nat.lt_or_ge i n with hi | hi
      · rw [List.range_succ, List.map_append,
          List.getD_append _ _ _ _ (by simp only [List.length_map, List.length_range]; omega)]
        exact ih i hi
      · have hi' : i = n := by omega
        subst hi'
        rw [List.range_succ, List.map_append]
        rw [List.getD_append_right _ _ _ _ (by simp only [List.length_map, List.length_range]; omega)]
        simp

theorem exec_args_inner (memWord memByte : Nat → Nat) (args size : Nat) :
    (exec_args_from_slice memWord memByte args size).inner =
      (List.range size).map
        (fun i => readBuf memByte (memWord (args + 16 * i))
          (memWord (args + 16 * i + 8))) := by
  simp only [exec_args_from_slice, collectLoop_eq, callerEntries,
    List.map_map, List.nil_append]
  rfl

/-- Claim C3: for every count (including 0) and every caller memory state,
exec_args_from_slice returns an ExecArgs of length exactly the count whose
i-th kernel-owned buffer is byte-for-byte the i-th caller buffer, in input
order; the copy is the total, unconditional read of the described source
ranges. -/
theorem C3_collect_roundtrip (memWord memByte : Nat → Nat) (args size : Nat) :
    (exec_args_from_slice memWord memByte args size).inner.length = size ∧
    ∀ i, i < size →
      (exec_args_from_slice memWord memByte args size).inner.getD i [] =
        readBuf memByte (memWord (args + 16 * i)) (memWord (args + 16 * i + 8)) ∧
      ∀ j, j < memWord (args + 16 * i + 8) →
        ((exec_args_from_slice memWord memByte args size).inner.getD i []).getD j 0 =
          memByte (memWord (args + 16 * i) + j) := by
  rw [exec_args_inner]
  refine ⟨by simp, fun i hi => ⟨getD_map_range _ _ _ _ hi, fun j hj => ?_⟩⟩
  rw [getD_map_range _ _ _ _ hi, readBuf, getD_map_range _ _ _ _ hj]

/-- Evaluation of claim C3 on a concrete memory with two entries. -/
theorem C3_collect_roundtrip_witness :
    (exec_args_from_slice (fun w => w) (fun x => x + 1) 0 2).inner.length = 2 ∧
    (exec_args_from_slice (fun w => w) (fun x => x + 1) 0 2).inner.getD 1 [] =
      readBuf (fun x => x + 1) 16 24 ∧
    ((exec_args_from_slice (fun w => w) (fun x => x + 1) 0 2).inner.getD 1 []).getD 3 0 = 20 :=
  ⟨(C3_collect_roundtrip (fun w => w) (fun x => x + 1) 0 2).1,
   ((C3_collect_roundtrip (fun w => w) (fun x => x + 1) 0 2).2 1 (by decide)).1,
   ((C3_collect_roundtrip (fun w => w) (fun x => x + 1) 0 2).2 1 (by decide)).2 3
     (by decide)⟩

theorem write_top (s : StackHelper) (b : Nat) : (s.write b).top = s.top - 1 :=
  rfl

theorem write_bytes_top (s : StackHelper) (l : List Nat) :
    (s.write_bytes l).top = s.top - l.length := rfl

theorem pushOne_top (s : StackHelper) (buf : List Nat) :
    ((s.write 0).write_bytes buf).top = s.top - (buf.length + 1) := by
  rw [write_bytes_top, write_top]
  omega

theorem write_mem_high (s : StackHelper) (b x : Nat) (h : 1 ≤ s.top)
    (hx : s.top ≤ x) : (s.write b).mem x = s.mem x := by
  simp only [StackHelper.write]
  rw [if_neg]
  omega

theorem write_bytes_mem_high (s : StackHelper) (l : List Nat) (x : Nat)
    (hx : s.top ≤ x) : (s.write_bytes l).mem x = s.mem x := by
  simp only [StackHelper.write_bytes]
  rw [if_neg]
  omega

theorem pushOne_mem_high (s : StackHelper) (buf : List Nat) (h : 1 ≤ s.top)
    (x : Nat) (hx : s.top ≤ x) :
    ((s.write 0).write_bytes buf).mem x = s.mem x := by
  rw [write_bytes_mem_high _ _ _ (by rw [write_top]; omega)]
  exact write_mem_high s 0 x h hx

theorem pushOne_mem_data (s : StackHelper) (buf : List Nat)
    (h : buf.length + 1 ≤ s.top) (j : Nat) (hj : j < buf.length) :
    ((s.write 0).write_bytes buf).mem (s.top - (buf.length + 1) + j) =
      buf.getD j 0 := by
  simp only [StackHelper.write, StackHelper.write_bytes]
  split
  · have hidx : s.top - (buf.length + 1) + j - (s.top - 1 - buf.length) = j := by
      omega
    rw [hidx]
  · omega

theorem pushOne_mem_zero (s : StackHelper) (buf : List Nat)
    (h : buf.length + 1 ≤ s.top) :
    ((s.write 0).write_bytes buf).mem (s.top - (buf.length + 1) + buf.length) =
      0 := by
  simp only [StackHelper.write, StackHelper.write_bytes]
  split
  · omega
  · split
    · rfl
    · omega

theorem pushLoop_fst :
    ∀ (bufs : List (List Nat)) (s : StackHelper) (tops : List Nat),
      (pushLoop bufs s tops).1 = tops ++ topsFrom s.top bufs
  | [], s, tops => by simp [pushLoop, topsFrom]
  | buf :: rest, s, tops => by
      rw [pushLoop, pushLoop_fst rest, pushOne_top, topsFrom]
      simp

theorem pushLoop_top :
    ∀ (bufs : List (List Nat)) (s : StackHelper) (tops : List Nat),
      (pushLoop bufs s tops).2.top = s.top - totalSize bufs
  | [], s, tops => by simp [pushLoop, totalSize]
  | buf :: rest, s, tops => by
      rw [pushLoop, pushLoop_top rest, pushOne_top, totalSize]
      omega

theorem pushLoop_mem_high :
    ∀ (bufs : List (List Nat)) (s : StackHelper) (tops : List Nat) (x : Nat),
      totalSize bufs ≤ s.top → s.top ≤ x →
      (pushLoop bufs s tops).2.mem x = s.mem x
  | [], s, tops, x, _, _ => rfl
  | buf :: rest, s, tops, x, h, hx => by
      rw [totalSize] at h
      have hts : totalSize rest ≤ ((s.write 0).write_bytes buf).top := by
        rw [pushOne_top]; omega
      have hx2 : ((s.write 0).write_bytes buf).top ≤ x := by
        rw [pushOne_top]; omega
      rw [pushLoop, pushLoop_mem_high rest _ _ x hts hx2]
      exact pushOne_mem_high s buf (by omega) x hx

theorem pushLoop_mem_entry :
    ∀ (bufs : List (List Nat)) (s : StackHelper) (tops : List Nat) (i : Nat),
      totalSize bufs ≤ s.top → i < bufs.length →
      (∀ j, j < (bufs.getD i []).length →
        (pushLoop bufs s tops).2.mem ((topsFrom s.top bufs).getD i 0 + j) =
          (bufs.getD i []).getD j 0) ∧
      (pushLoop bufs s tops).2.mem
        ((topsFrom s.top bufs).getD i 0 + (bufs.getD i []).length) = 0
  | [], _, _, i, _, hi => absurd hi (by simp)
  | buf :: rest, s, tops, 0, h, _ => by
      rw [totalSize] at h
      have h1 : buf.length + 1 ≤ s.top := by omega
      have hts : totalSize rest ≤ ((s.write 0).write_bytes buf).top := by
        rw [pushOne_top]; omega
      rw [pushLoop, topsFrom]
      simp only [List.getD_cons_zero]
      constructor
      · intro j hj
        rw [pushLoop_mem_high rest _ _ _ hts (by rw [pushOne_top]; omega)]
        exact pushOne_mem_data s buf h1 j hj
      · rw [pushLoop_mem_high rest _ _ _ hts (by rw [pushOne_top]; omega)]
        exact pushOne_mem_zero s buf h1
  | buf :: rest, s, tops, i + 1, h, hi => by
      rw [totalSize] at h
      have hts : totalSize rest ≤ ((s.write 0).write_bytes buf).top := by
        rw [pushOne_top]; omega
      have hi' : i < rest.length := by
        simp only [List.length_cons] at hi; omega
      rw [pushLoop, topsFrom]
      simp only [List.getD_cons_succ]
      rw [← pushOne_top s buf]
      exact pushLoop_mem_entry rest ((s.write 0).write_bytes buf)
        (tops ++ [((s.write 0).write_bytes buf).top]) i hts hi'

theorem topsFrom_length :
    ∀ (bufs : List (List Nat)) (t : Nat), (topsFrom t bufs).length = bufs.length
  | [], _ => rfl
  | buf :: rest, t => by
      rw [topsFrom, List.length_cons, List.length_cons, topsFrom_length rest]

theorem totalSize_eq_sum :
    ∀ bufs : List (List Nat),
      totalSize bufs = (bufs.map (fun buf => buf.length + 1)).sum
  | [] => rfl
  | buf :: rest => by
      rw [totalSize, List.map_cons, List.sum_cons, totalSize_eq_sum rest]

theorem topsFrom_chain :
    ∀ (bufs : List (List Nat)) (t : Nat), totalSize bufs ≤ t →
      List.Chain' (fun x y => y < x) (topsFrom t bufs)
  | [], _, _ => List.chain'_nil
  | [buf], t, _ => by simp [topsFrom]
  | b0 :: b1 :: rest, t, h => by
      rw [totalSize, totalSize] at h
      rw [topsFrom, topsFrom, List.chain'_cons]
      constructor
      · omega
      · have := topsFrom_chain (b1 :: rest) (t - (b0.length + 1))
          (by rw [totalSize]; omega)
        rw [topsFrom] at this
        exact this

/-- Claim C4 (amended): push_into_stack processes the buffers in input
order, for each first appending one zero byte and then the buffer's raw
bytes onto the downward-growing stack, records the cursor reached after
both writes, and returns exactly one address per buffer in input order;
reading forward from each returned address in the built stack image yields
that buffer's exact bytes followed immediately by the zero byte.  (On the
downward-growing stack the zero byte written first ends up at the address
just past the buffer content, so the forward read meets the content first
and the zero byte last, not the other way round.) -/
theorem C4_layout (args : ExecArgs) (s : StackHelper)
    (h : totalSize args.inner ≤ s.top) :
    (args.push_into_stack s).1.length = args.inner.length ∧
    (args.push_into_stack s).1 = topsFrom s.top args.inner ∧
    ∀ i, i < args.inner.length →
      (∀ j, j < (args.inner.getD i []).length →
        (args.push_into_stack s).2.mem ((args.push_into_stack s).1.getD i 0 + j) =
          (args.inner.getD i []).getD j 0) ∧
      (args.push_into_stack s).2.mem
        ((args.push_into_stack s).1.getD i 0 + (args.inner.getD i []).length) =
        0 := by
  have hf : (args.push_into_stack s).1 = topsFrom s.top args.inner := by
    rw [ExecArgs.push_into_stack, pushLoop_fst, List.nil_append]
  refine ⟨by rw [hf, topsFrom_length], hf, fun i hi => ?_⟩
  rw [hf, ExecArgs.push_into_stack]
  exact pushLoop_mem_entry args.inner s [] i h hi

/-- Evaluation of claim C4 on two concrete buffers. -/
theorem C4_layout_witness :
    totalSize ([[7, 0, 9], [4]] : List (List Nat)) ≤ 20 ∧
    ((⟨[[7, 0, 9], [4]]⟩ : ExecArgs).push_into_stack ⟨20, fun _ => 5⟩).1 = [16, 14] ∧
    ((⟨[[7, 0, 9], [4]]⟩ : ExecArgs).push_into_stack ⟨20, fun _ => 5⟩).2.mem (16 + 0) = 7 ∧
    ((⟨[[7, 0, 9], [4]]⟩ : ExecArgs).push_into_stack ⟨20, fun _ => 5⟩).2.mem (16 + 3) = 0 :=
  ⟨by decide,
   (C4_layout ⟨[[7, 0, 9], [4]]⟩ ⟨20, fun _ => 5⟩ (by decide)).2.1,
   by
     have := ((C4_layout ⟨[[7, 0, 9], [4]]⟩ ⟨20, fun _ => 5⟩ (by decide)).2.2 0
       (by decide)).1 0 (by decide)
     simpa using this,
   by
     have := ((C4_layout ⟨[[7, 0, 9], [4]]⟩ ⟨20, fun _ => 5⟩ (by decide)).2.2 0
       (by decide)).2
     simpa using this⟩

/-- Claim C4 counterexample: for the single buffer [7] pushed onto a stack
with cursor 10, the recorded address is 8 and the byte read there is the
buffer byte 7, not a zero byte; the zero byte sits after the content, at 9.
The claimed forward reading (zero byte first, then the buffer bytes) is
false at the returned address. -/
theorem C4_layout_counterexample :
    ((⟨[[7]]⟩ : ExecArgs).push_into_stack ⟨10, fun _ => 5⟩).1 = [8] ∧
    ((⟨[[7]]⟩ : ExecArgs).push_into_stack ⟨10, fun _ => 5⟩).2.mem 8 = 7 ∧
    ((⟨[[7]]⟩ : ExecArgs).push_into_stack ⟨10, fun _ => 5⟩).2.mem 9 = 0 ∧
    ¬ ((⟨[[7]]⟩ : ExecArgs).push_into_stack ⟨10, fun _ => 5⟩).2.mem 8 = 0 := by
  decide

/-- Claim C9: push_into_stack cannot mutate the ExecArgs (taken by shared
reference; the embedding is a pure function of it), moves the stack top
down by exactly the sum of (length + 1) over the buffers, and returns one
address per buffer, strictly decreasing in input order. -/
theorem C9_push_frame (args : ExecArgs) (s : StackHelper)
    (h : totalSize args.inner ≤ s.top) :
    (args.push_into_stack s).2.top =
      s.top - (args.inner.map (fun buf => buf.length + 1)).sum ∧
    (args.push_into_stack s).1.length = args.inner.length ∧
    List.Chain' (fun x y => y < x) (args.push_into_stack s).1 := by
  refine ⟨?_, ?_, ?_⟩
  · rw [ExecArgs.push_into_stack, pushLoop_top, totalSize_eq_sum]
  · rw [ExecArgs.push_into_stack, pushLoop_fst, List.nil_append, topsFrom_length]
  · rw [ExecArgs.push_into_stack, pushLoop_fst, List.nil_append]
    exact topsFrom_chain args.inner s.top h

/-- Evaluation of claim C9 on two concrete buffers. -/
theorem C9_push_frame_witness :
    totalSize ([[1, 2], [3]] : List (List Nat)) ≤ 50 ∧
    ((⟨[[1, 2], [3]]⟩ : ExecArgs).push_into_stack ⟨50, fun _ => 0⟩).2.top = 45 ∧
    ((⟨[[1, 2], [3]]⟩ : ExecArgs).push_into_stack ⟨50, fun _ => 0⟩).1.length = 2 ∧
    List.Chain' (fun x y => y < x)
      ((⟨[[1, 2], [3]]⟩ : ExecArgs).push_into_stack ⟨50, fun _ => 0⟩).1 :=
  ⟨by decide, (C9_push_frame ⟨[[1, 2], [3]]⟩ ⟨50, fun _ => 0⟩ (by decide)).1,
   (C9_push_frame ⟨[[1, 2], [3]]⟩ ⟨50, fun _ => 0⟩ (by decide)).2.1,
   (C9_push_frame ⟨[[1, 2], [3]]⟩ ⟨50, fun _ => 0⟩ (by decide)).2.2⟩

/-- Claim C5 (amended): for every address, size and label whose unchecked
upper-bound addition does not overflow the machine word, tag_memory inserts
one entry mapping the half-open range from address to address + size to the
label into the calling thread's tag map and returns success with value 0;
the insertion appends one independent entry whatever the existing map holds
(overlapping entries are never merged or rejected), and size 0 is accepted,
producing an empty range. -/
theorem C5_tag_memory_insert (addr size : Nat) (tag : String) (tags : TagMap)
    (h : addr + size < usizeLim) :
    tag_memory addr size tag tags =
      some (Except.ok 0, tags ++ [(addr, addr + size, tag)]) ∧
    (tag_memory addr size tag tags).map (fun r => r.2.length) =
      some (tags.length + 1) := by
  rw [tag_memory, if_pos h]
  simp

/-- Evaluation of claim C5 on the spec's scenario: tagging 0x1000..0x1010
as heap, then an overlapping range with a different label; two independent
entries result, and a size-0 call yields an empty range. -/
theorem C5_tag_memory_insert_witness :
    4096 + 16 < usizeLim ∧
    tag_memory 4096 16 "heap" [] =
      some (Except.ok 0, [(4096, 4112, "heap")]) ∧
    tag_memory 4104 16 "stack" [(4096, 4112, "heap")] =
      some (Except.ok 0, [(4096, 4112, "heap"), (4104, 4120, "stack")]) ∧
    tag_memory 4096 0 "empty" [] = some (Except.ok 0, [(4096, 4096, "empty")]) :=
  ⟨by norm_num [usizeLim],
   (C5_tag_memory_insert 4096 16 "heap" [] (by norm_num [usizeLim])).1,
   (C5_tag_memory_insert 4104 16 "stack" [(4096, 4112, "heap")]
     (by norm_num [usizeLim])).1,
   (C5_tag_memory_insert 4096 0 "empty" [] (by norm_num [usizeLim])).1⟩

/-- Claim C5 counterexample: at address 2 ^ 63 with size 2 ^ 63 the
unchecked addition overflows the machine word, and the handler does not
return success with value 0 for this address and size, refuting the
unconditional claim. -/
theorem C5_tag_memory_insert_counterexample :
    tag_memory (2 ^ 63) (2 ^ 63) "heap" [] = none := by
  rw [tag_memory, if_neg]
  norm_num [usizeLim]

/-- Claim C8: tag_memory computes the upper bound of the inserted range as
the unchecked machine-word sum address + size; whenever that sum fits in
the machine word the operation is total, inserts the entry and returns
success value 0 without panicking, and whenever it does not fit the
unchecked addition overflows, so the handler is not panic-free on all raw
argument words. -/
theorem C8_tag_memory_overflow (addr size : Nat) (tag : String)
    (tags : TagMap) :
    (addr + size < usizeLim →
      tag_memory addr size tag tags =
        some (Except.ok 0, tags ++ [(addr, addr + size, tag)])) ∧
    (usizeLim ≤ addr + size → tag_memory addr size tag tags = none) := by
  constructor
  · intro h
    rw [tag_memory, if_pos h]
  · intro h
    rw [tag_memory, if_neg (by omega)]

/-- Evaluation of claim C8 on both sides of the overflow boundary. -/
theorem C8_tag_memory_overflow_witness :
    tag_memory 4096 16 "tag" [] = some (Except.ok 0, [(4096, 4112, "tag")]) ∧
    tag_memory (2 ^ 63) (2 ^ 63) "tag" [] = none :=
  ⟨(C8_tag_memory_overflow 4096 16 "tag" []).1 (by norm_num [usizeLim]),
   (C8_tag_memory_overflow (2 ^ 63) (2 ^ 63) "tag" []).2 (by norm_num [usizeLim])⟩

/-- Claim C6: for every trace record with an outcome attached, flush emits
exactly one trace-level line consisting of the call name colored by
success or failure, the ordered argument strings comma-joined in
parentheses, and the outcome rendered after the equals sign; it triggers
exactly one stack-trace dump if and only if the attached outcome is an
error, and none on success.  The flush consumes the record and produces
only diagnostics: its result carries no outcome, so it cannot alter the
outcome delivered to the caller. -/
theorem C6_flush_line (l : SysLog) (r : SyscallResult) (h : l.result = some r) :
    l.flush =
      some ([⟨Severity.trace,
              (if resultIsOk r then "\x1b[1;32m" else "\x1b[1;31m")
                ++ l.name ++ "\x1b[0m(" ++ joinArgs l.args ++ ") = "
                ++ renderResult r⟩],
            if resultIsOk r then 0 else 1) ∧
    ((l.flush.map Prod.snd = some 1) ↔ resultIsOk r = false) ∧
    (resultIsOk r = true → l.flush.map Prod.snd = some 0) := by
  have hf : l.flush =
      some ([⟨Severity.trace,
              (if resultIsOk r then "\x1b[1;32m" else "\x1b[1;31m")
                ++ l.name ++ "\x1b[0m(" ++ joinArgs l.args ++ ") = "
                ++ renderResult r⟩],
            if resultIsOk r then 0 else 1) := by
    rw [SysLog.flush, h]
  refine ⟨hf, ?_, ?_⟩
  · rw [hf]
    cases hr : resultIsOk r <;> simp [hr]
  · intro hr
    rw [hf, hr]
    simp

/-- Evaluation of claim C6 on the spec's scenario: a record named X with no
arguments and success outcome 0 emits one success-colored line reading
X() = Ok(0) with no stack-trace dump; the same record with an error
outcome triggers exactly one dump. -/
theorem C6_flush_line_witness :
    ((SysLog.new "X").set_result (Except.ok 0)).flush =
      some ([⟨Severity.trace, "\x1b[1;32mX\x1b[0m() = Ok(0)"⟩], 0) ∧
    ((SysLog.new "X").set_result
        (Except.error SyscallError.ENOSYS)).flush =
      some ([⟨Severity.trace, "\x1b[1;31mX\x1b[0m() = Err(ENOSYS)"⟩], 1) :=
  ⟨(C6_flush_line ((SysLog.new "X").set_result (Except.ok 0))
      (Except.ok 0) rfl).1,
   (C6_flush_line ((SysLog.new "X").set_result
      (Except.error SyscallError.ENOSYS))
      (Except.error SyscallError.ENOSYS) rfl).1⟩

/-- Claim C7: flushing a trace record whose outcome was never set reaches
the crashing unwrap of the absent outcome (modelled as none); whenever
set_result was applied before the flush, the crashing branch is
unreachable and flush completes. -/
theorem C7_flush_unset_crash (l : SysLog) :
    (l.result = none → l.flush = none) ∧
    ∀ r : SyscallResult, ((l.set_result r).flush).isSome = true := by
  constructor
  · intro h
    rw [SysLog.flush, h]
  · intro r
    rw [SysLog.flush]
    simp [SysLog.set_result]

/-- Evaluation of claim C7 on a freshly built record. -/
theorem C7_flush_unset_crash_witness :
    (SysLog.new "X").flush = none ∧
    (((SysLog.new "X").set_result (Except.ok 0)).flush).isSome = true :=
  ⟨(C7_flush_unset_crash (SysLog.new "X")).1 rfl,
   (C7_flush_unset_crash (SysLog.new "X")).2 (Except.ok 0)⟩

/-- Claim C10: set_result modifies only the outcome field, leaving the call
name and the ordered rendered argument strings unchanged; a second
set_result overwrites the first (last write wins), and a subsequent flush
reports only the most recently set outcome. -/
theorem C10_set_result_frame (l : SysLog) (r1 r2 : SyscallResult) :
    (l.set_result r1).name = l.name ∧
    (l.set_result r1).args = l.args ∧
    (l.set_result r1).result = some r1 ∧
    (l.set_result r1).set_result r2 = l.set_result r2 ∧
    ((l.set_result r1).set_result r2).flush = (l.set_result r2).flush :=
  ⟨rfl, rfl, rfl, rfl, rfl⟩

end Aero
